import Mathlib

/-!
Shallow embedding of `src/recent_run_check.py` (WIPACrepo/wipac-dev-recent-run-check-action).

The script decides whether an equivalent workflow run / job already executed
recently on the same branch at a different commit.  Network responses
(`gh_api`) are modelled by an oracle structure `Gh`; the configuration read
from the process environment is modelled by an immutable `Env` record; the
current wall clock (`datetime.now(timezone.utc)`) is an explicit rational
parameter `now` measured in seconds since the Unix epoch.  Exceptions that
escape a Python function are modelled with `Except Err`; each function that
may issue HTTP requests additionally returns the list of requests it issued,
in order, so that "no network call happens" is a provable statement.
-/

/-- Errors that can escape the script, mirroring §7 of the documentation:
`ValueError` from `datetime.fromisoformat` (malformed timestamp), the
`ValueError` raised by `main` on an unrecognized `SCOPE`, and the transport /
auth failures that `urllib` can raise inside `gh_api`. -/
inductive Err where
  | timestampError
  | configError (scope : String)
  | transportError
  | authError
deriving DecidableEq

deriving instance DecidableEq for Except

/-- Python's `str.lower()` on one character; the configuration values the
script lowercases (`SCOPE`, `ALWAYS_FALSE_ON_DEFAULT_BRANCH`) are ASCII. -/
def lowerChar (c : Char) : Char :=
  if 'A' ≤ c ∧ c ≤ 'Z' then Char.ofNat (c.toNat + 32) else c

/-- Python's `str.lower()`, character by character. -/
def strLower (s : String) : String := String.mk (s.data.map lowerChar)

/-- Decimal rendering of a natural number, digit by digit; extensionally the
same as Python's `str` on a non-negative `int` (used by the f-strings in the
script).  Structural recursion on a fuel argument so that it reduces by
`decide`/`rfl`; the fuel `n + 1` always suffices since `n / 10 < n`. -/
def natStrAux : Nat → Nat → List Char
  | 0, _ => []
  | fuel + 1, n =>
    if n < 10 then [Nat.digitChar n]
    else natStrAux fuel (n / 10) ++ [Nat.digitChar (n % 10)]

/-- Decimal rendering of a natural number, see `natStrAux`. -/
def natStr (n : Nat) : String := String.mk (natStrAux (n + 1) n)

/-- Python's `str` on an `int` of either sign. -/
def intStr (i : Int) : String :=
  if i < 0 then "-" ++ natStr i.natAbs else natStr i.toNat

/-- Python's `int()` truncation (toward zero) of a rational value. -/
def pyTrunc (q : ℚ) : Int :=
  if q < 0 then -(((-q).num.toNat / (-q).den : Nat) : Int)
  else ((q.num.toNat / q.den : Nat) : Int)

/-- Numeric value of a decimal digit character. -/
def digitVal (c : Char) : Nat := c.toNat - '0'.toNat

/-- Gregorian leap-year rule (as validated by `datetime`). -/
def isLeapYear (y : Nat) : Bool :=
  y % 4 = 0 && (y % 100 ≠ 0 || y % 400 = 0)

/-- Number of days in a month, as validated by `datetime.fromisoformat`. -/
def daysInMonth (y m : Nat) : Nat :=
  if m = 2 then (if isLeapYear y then 29 else 28)
  else if m = 4 || m = 6 || m = 9 || m = 11 then 30
  else 31

/-- Seconds since the Unix epoch of a civil UTC date-time (the value of
`datetime(y, mo, d, h, mi, se, tzinfo=utc).timestamp()`), via the standard
days-from-civil computation.  All divisions are on naturals (the year is
validated to be at least 1 before this is called). -/
def epochOfCivil (y mo d h mi se : Nat) : Int :=
  let yAdj := if mo ≤ 2 then y - 1 else y
  let era := yAdj / 400
  let yoe := yAdj % 400
  let mp := if 2 < mo then mo - 3 else mo + 9
  let doy := (153 * mp + 2) / 5 + (d - 1)
  let doe := yoe * 365 + yoe / 4 - yoe / 100 + doy
  (((era * 146097 + doe : Nat) : Int) - 719468) * 86400
    + ((h * 3600 + mi * 60 + se : Nat) : Int)

/-- `parse_utc`: `datetime.fromisoformat(ts.replace("Z", "+00:00"))` on the
provider timestamp shape `YYYY-MM-DDThh:mm:ssZ` (the GitHub API always emits
this shape, §6 of the documentation: extended ISO-8601 with a literal `Z`
suffix).  The result is the parsed instant in seconds since the epoch; any
string that is not a valid calendar date-time of this shape raises
`ValueError` in Python and is mapped to `none` here. -/
def parse_utc (ts : String) : Option Int :=
  match ts.data with
  | [y1, y2, y3, y4, s1, mo1, mo2, s2, d1, d2, tSep,
     h1, h2, c1, mi1, mi2, c2, se1, se2, zSuf] =>
    if (y1.isDigit && y2.isDigit && y3.isDigit && y4.isDigit && s1 = '-' &&
        mo1.isDigit && mo2.isDigit && s2 = '-' && d1.isDigit && d2.isDigit &&
        tSep = 'T' && h1.isDigit && h2.isDigit && c1 = ':' &&
        mi1.isDigit && mi2.isDigit && c2 = ':' && se1.isDigit && se2.isDigit &&
        zSuf = 'Z' : Bool) then
      let y := digitVal y1 * 1000 + digitVal y2 * 100 + digitVal y3 * 10 + digitVal y4
      let mo := digitVal mo1 * 10 + digitVal mo2
      let d := digitVal d1 * 10 + digitVal d2
      let h := digitVal h1 * 10 + digitVal h2
      let mi := digitVal mi1 * 10 + digitVal mi2
      let se := digitVal se1 * 10 + digitVal se2
      if (1 ≤ y ∧ 1 ≤ mo ∧ mo ≤ 12 ∧ 1 ≤ d ∧ d ≤ daysInMonth y mo ∧
          h ≤ 23 ∧ mi ≤ 59 ∧ se ≤ 59) then
        some (epochOfCivil y mo d h mi se)
      else none
    else none
  | _ => none

/-- `calculate_age_seconds`: `(datetime.now(timezone.utc) - parse_utc(ts)).total_seconds()`;
the sampled clock is the explicit parameter `now`.  A malformed timestamp
makes `parse_utc` raise, which escapes this function. -/
def calculate_age_seconds (now : ℚ) (ts : String) : Except Err ℚ :=
  match parse_utc ts with
  | none => Except.error Err.timestampError
  | some t => Except.ok (now - (t : ℚ))

/-- `humanize_seconds`: short human string for seconds like `"8m 12s"`, or
`"—"` for `None`.  `int(max(0, s))` is the floor of the clamped value (the
clamped value is non-negative, where `int()` truncation and floor agree),
then two `divmod`s split it into hours / minutes / seconds. -/
def humanize_seconds (s : Option ℚ) : String :=
  match s with
  | none => "—"
  | some v =>
    let sN : Nat := (max 0 v).num.toNat / (max 0 v).den
    let m := sN / 60
    let sec := sN % 60
    let h := m / 60
    let m2 := m % 60
    if h ≠ 0 then natStr h ++ "h " ++ natStr m2 ++ "m " ++ natStr sec ++ "s"
    else if m2 ≠ 0 then natStr m2 ++ "m " ++ natStr sec ++ "s"
    else natStr sec ++ "s"

/-- One element of the `workflow_runs` array returned by the run-listing
endpoint.  `id` is kept as the string the script immediately converts it to
(`str(run["id"])`); the other fields use `Option` for JSON fields that may be
missing or `null` (`run.get(...)`). -/
structure RunRec where
  id : String
  head_sha : Option String
  run_started_at : Option String
  created_at : Option String
deriving DecidableEq

/-- One element of the `jobs` array returned by the job-listing endpoint. -/
structure JobRec where
  name : Option String
  started_at : Option String
  created_at : Option String
deriving DecidableEq

/-- Python's `a or b` on two optional strings (where a missing key and an
empty string are both falsy), as used for the `started_at`/`created_at`
timestamp fallback. -/
def pyOrStr (a b : Option String) : Option String :=
  match a with
  | some s => if s = "" then b else some s
  | none => b

/-- Representative timestamp of a run: `prior.get("run_started_at") or prior.get("created_at")`. -/
def run_timestamp (r : RunRec) : Option String :=
  pyOrStr r.run_started_at r.created_at

/-- Representative timestamp of a job: `job.get("started_at") or job.get("created_at")`. -/
def job_timestamp (j : JobRec) : Option String :=
  pyOrStr j.started_at j.created_at

/-- One HTTP request issued through `gh_api`, identified by endpoint and the
parameter that varies: the run-listing request for a branch
(`.../workflows/{wf}/runs?branch={branch}&per_page=10`) or the job-listing
request for a run (`.../runs/{run_id}/jobs?per_page=100`). -/
inductive ApiCall where
  | listRuns (branch : String)
  | listJobs (runId : String)
deriving DecidableEq

/-- Oracle for the GitHub API: the single page of `workflow_runs` the
run-listing endpoint returns (newest first, capped at 10 by the provider),
and the `jobs` page returned for each run id. -/
structure Gh where
  runs : List RunRec
  jobs : String → List JobRec

/-- The environment configuration `main` reads, one field per environment
variable: `WINDOW_SECONDS` (already through `int(...)`), `SCOPE` (raw; `main`
lowercases it), `GITHUB_REF_NAME`, `GITHUB_DEFAULT_BRANCH`,
`ALWAYS_FALSE_ON_DEFAULT_BRANCH` (raw; `main` lowercases and compares with
`"true"`), `GITHUB_RUN_ID`, `GITHUB_SHA`, `GITHUB_JOB`. -/
structure Env where
  window : Int
  scope : String
  branch : String
  default_branch : String
  always_false_on_default : String
  run_id : String
  sha : String
  job : String

/-- The `details` dict built by the decision functions: insertion-ordered
key/value pairs, exactly as a Python dict preserves insertion order. -/
abbrev Details := List (String × String)

/-- The `for run in ...` loop of `get_latest_prior_different_commit_run`:
skip the current run id, skip runs on the current commit sha, return the
first remaining run. -/
def find_prior_run (current_run current_sha : String) : List RunRec → Option RunRec
  | [] => none
  | run :: rest =>
    if run.id = current_run then find_prior_run current_run current_sha rest
    else if run.head_sha = some current_sha then find_prior_run current_run current_sha rest
    else some run

/-- `get_latest_prior_different_commit_run`: one run-listing request for the
branch, then the scan of the returned page.  No further page is ever
requested. -/
def get_latest_prior_different_commit_run (env : Env) (gh : Gh) :
    Option RunRec × List ApiCall :=
  (find_prior_run env.run_id env.sha gh.runs, [ApiCall.listRuns env.branch])

/-- `details` built by `workflow_decision`/`job_decision` when no prior
different-commit run exists. -/
def no_prior_details : Details :=
  [("reason", "No prior different-commit workflow run on this branch."),
   ("age_seconds", "—"),
   ("prior_run_id", "—"),
   ("prior_timestamp", "—")]

/-- `details` built by `workflow_decision` when the prior run has no usable
timestamp. -/
def no_ts_details (priorId : String) : Details :=
  [("reason", "Prior run had no usable timestamp."),
   ("age_seconds", "—"),
   ("prior_run_id", priorId),
   ("prior_timestamp", "—")]

/-- `details` built by `workflow_decision` once an age was computed. -/
def workflow_decided_details (recent : Bool) (age : ℚ) (priorId ts : String) : Details :=
  [("reason", if recent then "Recent prior workflow run detected."
              else "Prior workflow run is outside the window."),
   ("age_seconds", intStr (pyTrunc age)),
   ("prior_run_id", priorId),
   ("prior_timestamp", ts)]

/-- `workflow_decision(window_seconds)`: locate the prior different-commit
run, read its timestamp with the `run_started_at`-then-`created_at` fallback,
compare the age against the window with a strict `<`.  The returned trace
lists the HTTP requests issued. -/
def workflow_decision (env : Env) (gh : Gh) (now : ℚ) :
    Except Err (Bool × Details) × List ApiCall :=
  let pc := get_latest_prior_different_commit_run env gh
  match pc.1 with
  | none => (Except.ok (false, no_prior_details), pc.2)
  | some prior =>
    match run_timestamp prior with
    | none => (Except.ok (false, no_ts_details prior.id), pc.2)
    | some ts =>
      if ts = "" then (Except.ok (false, no_ts_details prior.id), pc.2)
      else
        match calculate_age_seconds now ts with
        | Except.error e => (Except.error e, pc.2)
        | Except.ok age =>
          let recent := decide (age < (env.window : ℚ))
          (Except.ok (recent, workflow_decided_details recent age prior.id ts), pc.2)

/-- `get_latest_prior_different_commit_run_id`: `str(prior["id"])` of the
located run, or `None`. -/
def get_latest_prior_different_commit_run_id (env : Env) (gh : Gh) :
    Option String × List ApiCall :=
  let pc := get_latest_prior_different_commit_run env gh
  (Option.map RunRec.id pc.1, pc.2)

/-- The `for job in jobs` loop of `get_job_timestamp_in_run`: the first job
whose `name` equals `job_name` has its `started_at or created_at` returned
immediately (even when that value is itself `None`/empty); no match returns
`None`. -/
def find_job_ts (job_name : String) : List JobRec → Option String
  | [] => none
  | j :: rest =>
    if j.name = some job_name then job_timestamp j
    else find_job_ts job_name rest

/-- `get_job_timestamp_in_run(run_id, job_name)`: one job-listing request for
the run, then the scan of the returned jobs. -/
def get_job_timestamp_in_run (gh : Gh) (run_id job_name : String) :
    Option String × List ApiCall :=
  (find_job_ts job_name (gh.jobs run_id), [ApiCall.listJobs run_id])

/-- `details` built by `job_decision` when no prior different-commit run
exists. -/
def job_no_prior_details (jobName : String) : Details :=
  [("reason", "No prior different-commit workflow run on this branch."),
   ("age_seconds", "—"),
   ("prior_run_id", "—"),
   ("prior_timestamp", "—"),
   ("job_name", jobName)]

/-- `details` built by `job_decision` when the prior run had no job with a
matching name (or the matching job carried no usable timestamp). -/
def job_no_match_details (lastRunId jobName : String) : Details :=
  [("reason", "Prior run did not include a matching job."),
   ("age_seconds", "—"),
   ("prior_run_id", lastRunId),
   ("prior_timestamp", "—"),
   ("job_name", jobName)]

/-- `details` built by `job_decision` once an age was computed. -/
def job_decided_details (recent : Bool) (age : ℚ) (lastRunId ts jobName : String) : Details :=
  [("reason", if recent then "Recent prior job run detected."
              else "Prior job run is outside the window."),
   ("age_seconds", intStr (pyTrunc age)),
   ("prior_run_id", lastRunId),
   ("prior_timestamp", ts),
   ("job_name", jobName)]

/-- `job_decision(window_seconds)`: locate the prior different-commit run id,
look the current job name up in that run's jobs, compare the age against the
window with a strict `<`. -/
def job_decision (env : Env) (gh : Gh) (now : ℚ) :
    Except Err (Bool × Details) × List ApiCall :=
  let rc := get_latest_prior_different_commit_run_id env gh
  match rc.1 with
  | none => (Except.ok (false, job_no_prior_details env.job), rc.2)
  | some last_run_id =>
    let tc := get_job_timestamp_in_run gh last_run_id env.job
    let calls := rc.2 ++ tc.2
    match tc.1 with
    | none => (Except.ok (false, job_no_match_details last_run_id env.job), calls)
    | some ts =>
      if ts = "" then (Except.ok (false, job_no_match_details last_run_id env.job), calls)
      else
        match calculate_age_seconds now ts with
        | Except.error e => (Except.error e, calls)
        | Except.ok age =>
          let recent := decide (age < (env.window : ℚ))
          (Except.ok (recent, job_decided_details recent age last_run_id ts env.job), calls)

/-- `details` built inline by `main` when the default-branch guard fires. -/
def guard_details : Details :=
  [("reason", "Default-branch protection active."),
   ("age_seconds", "—"),
   ("prior_run_id", "—"),
   ("prior_timestamp", "—")]

/-- `main()`: the default-branch guard, then the scope dispatch.  The
returned pair carries the decision together with the `details` dict `main`
hands to `log_summary` (the Python function returns only the boolean and
passes `details` to the reporting adapter); the second component is the trace
of HTTP requests issued. -/
def main_fn (env : Env) (gh : Gh) (now : ℚ) :
    Except Err (Bool × Details) × List ApiCall :=
  let scope := strLower env.scope
  let always_false_default := strLower env.always_false_on_default = "true"
  if always_false_default ∧ env.branch = env.default_branch then
    (Except.ok (false, guard_details), [])
  else if scope = "workflow" then workflow_decision env gh now
  else if scope = "job" then job_decision env gh now
  else (Except.error (Err.configError env.scope), [])

/-- The `if __name__ == "__main__"` wrapper, applied to the outcome of
`main()`: on success it prints the `ran_recently=...` line; on any exception
it prints `ran_recently=false` and re-raises.  Result: the printed output
lines and the exception that propagates out of the process (if any). -/
def emit_output (r : Except Err (Bool × Details)) : List String × Option Err :=
  match r with
  | Except.ok (b, _) => (["ran_recently=" ++ (if b then "true" else "false")], none)
  | Except.error e => (["ran_recently=false"], some e)

/-- The whole script: `main()` under the `__main__` try/except. -/
def run_script (env : Env) (gh : Gh) (now : ℚ) : List String × Option Err :=
  emit_output (main_fn env gh now).1

/-! ### Concrete fixtures used by the witness theorems -/

/-- The prior run of the scenario in §8 of the documentation: id 499, a
different commit, started 120 s before `now`. -/
def sampleRun : RunRec :=
  { id := "499", head_sha := some "def456",
    run_started_at := some "2024-01-01T00:00:00Z", created_at := none }

/-- The current run's own record as the provider reports it (id 500, current
commit). -/
def sampleSelfRun : RunRec :=
  { id := "500", head_sha := some "abc123",
    run_started_at := some "2024-01-01T00:02:00Z", created_at := none }

/-- Workflow-scope configuration off the default branch. -/
def sampleEnvW : Env :=
  { window := 600, scope := "workflow", branch := "feature",
    default_branch := "main", always_false_on_default := "false",
    run_id := "500", sha := "abc123", job := "build" }

/-- Job-scope configuration off the default branch. -/
def sampleEnvJ : Env :=
  { sampleEnvW with scope := "job" }

/-- Provider oracle for the workflow-scope scenario. -/
def sampleGhW : Gh :=
  { runs := [sampleSelfRun, sampleRun], jobs := fun _ => [] }

/-- Provider oracle for the job-scope scenario: the prior run contains a job
named `build` started 120 s before `now`. -/
def sampleGhJ : Gh :=
  { runs := [sampleSelfRun, sampleRun],
    jobs := fun _ =>
      [{ name := some "build", started_at := some "2024-01-01T00:00:00Z",
         created_at := none }] }

/-- The sampled clock of the scenario: 120 s after `sampleRun` started. -/
def sampleNow : ℚ := 1704067320

/-- A prior run whose timestamp is present but malformed. -/
def badTsRun : RunRec :=
  { id := "499", head_sha := some "def456",
    run_started_at := some "not-a-timestamp", created_at := none }

/-- Oracle whose only prior run carries a malformed timestamp. -/
def badTsGh : Gh := { runs := [badTsRun], jobs := fun _ => [] }

/-- A prior run with neither `run_started_at` nor `created_at`. -/
def noTsRun : RunRec :=
  { id := "499", head_sha := some "def456",
    run_started_at := none, created_at := none }

/-- Oracle whose only prior run carries no timestamp at all. -/
def noTsGh : Gh := { runs := [noTsRun], jobs := fun _ => [] }

/-- Configuration with an unrecognized `SCOPE`, off the default branch. -/
def badScopeEnv : Env :=
  { sampleEnvW with scope := "banana" }

/-- Configuration with an unrecognized `SCOPE` on the default branch, with
the default-branch flag enabled. -/
def guardBadScopeEnv : Env :=
  { window := 600, scope := "banana", branch := "main",
    default_branch := "main", always_false_on_default := "true",
    run_id := "500", sha := "abc123", job := "build" }

/-- Job-scope configuration on the default branch with the default-branch
flag enabled (in mixed case, exercising the lowercasing). -/
def guardJobEnv : Env :=
  { window := 600, scope := "job", branch := "main",
    default_branch := "main", always_false_on_default := "TRUE",
    run_id := "500", sha := "abc123", job := "build" }

/-! ### Claim theorems -/

/-- C2: when the default-branch flag is enabled (its value lowercases to
`"true"`) and the current branch equals the default branch, `main` returns
`false` with the guard details for every provider history `gh` and every
clock `now`, and its trace of issued HTTP requests is empty: the guard is
decided before any network call. -/
theorem c2_default_branch_guard (env : Env) (gh : Gh) (now : ℚ)
    (hflag : strLower env.always_false_on_default = "true")
    (hbr : env.branch = env.default_branch) :
    main_fn env gh now = (Except.ok (false, guard_details), []) := by
  unfold main_fn
  rw [if_pos ⟨hflag, hbr⟩]

/-- Witness for C2: on branch `main` = default branch with the flag set to
`"TRUE"` (case-insensitive), the guard fires even though the provider history
contains a qualifying recent prior run. -/
theorem c2_witness :
    strLower guardJobEnv.always_false_on_default = "true" ∧
    guardJobEnv.branch = guardJobEnv.default_branch ∧
    main_fn guardJobEnv sampleGhJ sampleNow = (Except.ok (false, guard_details), []) :=
  ⟨by decide, by decide,
   c2_default_branch_guard guardJobEnv sampleGhJ sampleNow (by decide) (by decide)⟩

/-- C5: for every error escaping `main`, the `__main__` wrapper prints the
persisted `ran_recently=false` output line and still propagates the error. -/
theorem c5_output_line_on_error :
    ∀ (e : Err), emit_output (Except.error e) = (["ran_recently=false"], some e) ∧
      ∀ (env : Env) (gh : Gh) (now : ℚ), (main_fn env gh now).1 = Except.error e →
        run_script env gh now = (["ran_recently=false"], some e) := by
  intro e
  refine ⟨rfl, ?_⟩
  intro env gh now h
  unfold run_script
  rw [h]; rfl

/-- Witness for C5: an unrecognized scope makes `main` raise, and the script
still prints `ran_recently=false` before the error propagates. -/
theorem c5_witness :
    (main_fn badScopeEnv sampleGhW sampleNow).1 = Except.error (Err.configError "banana") ∧
    run_script badScopeEnv sampleGhW sampleNow =
      (["ran_recently=false"], some (Err.configError "banana")) :=
  ⟨by decide,
   (c5_output_line_on_error (Err.configError "banana")).2 badScopeEnv sampleGhW sampleNow
     (by decide)⟩

/-- C6: for every run record and every job record, the representative
timestamp follows the fixed fallback order: `run_started_at` (resp.
`started_at`) wins whenever it is present and non-empty, and `created_at` is
the result exactly when the preferred field is missing or empty — the result
is always one of the two fields wholesale, never a combination. -/
theorem c6_timestamp_fallback_order (r : RunRec) (j : JobRec) :
    (∀ s, r.run_started_at = some s → s ≠ "" → run_timestamp r = some s) ∧
    ((r.run_started_at = none ∨ r.run_started_at = some "") →
      run_timestamp r = r.created_at) ∧
    (∀ s, j.started_at = some s → s ≠ "" → job_timestamp j = some s) ∧
    ((j.started_at = none ∨ j.started_at = some "") →
      job_timestamp j = j.created_at) := by
  refine ⟨?_, ?_, ?_, ?_⟩
  · intro s hs hne
    unfold run_timestamp pyOrStr
    rw [hs]
    simp [hne]
  · rintro (hs | hs) <;> simp [run_timestamp, pyOrStr, hs]
  · intro s hs hne
    unfold job_timestamp pyOrStr
    rw [hs]
    simp [hne]
  · rintro (hs | hs) <;> simp [job_timestamp, pyOrStr, hs]

/-- Witness for C6: the fallback at concrete records — a non-empty
`run_started_at` wins; an empty `started_at` falls back to `created_at`. -/
theorem c6_witness :
    run_timestamp sampleRun = some "2024-01-01T00:00:00Z" ∧
    job_timestamp { name := some "build", started_at := some "",
                    created_at := some "2024-01-01T00:00:00Z" } =
      some "2024-01-01T00:00:00Z" :=
  ⟨(c6_timestamp_fallback_order sampleRun
      { name := none, started_at := none, created_at := none }).1
      "2024-01-01T00:00:00Z" rfl (by decide),
   (c6_timestamp_fallback_order sampleRun
      { name := some "build", started_at := some "",
        created_at := some "2024-01-01T00:00:00Z" }).2.2.2 (Or.inr rfl)⟩

/-- C10: every negative seconds value is clamped to zero by
`humanize_seconds`, which then renders `"0s"`; a negative duration is never
rendered. -/
theorem c10_negative_seconds_clamped (q : ℚ) (h : q < 0) :
    humanize_seconds (some q) = "0s" := by
  simp only [humanize_seconds]
  rw [max_eq_left h.le]
  decide

/-- Witness for C10: the clamp at `-7/2` seconds. -/
theorem c10_witness :
    ((-7 : ℚ)/2 < 0) ∧ humanize_seconds (some ((-7 : ℚ)/2)) = "0s" :=
  ⟨by norm_num, c10_negative_seconds_clamped ((-7 : ℚ)/2) (by norm_num)⟩

/-- The scan of `get_latest_prior_different_commit_run` is `List.find?` with
the predicate "id differs from the current run id and sha differs from the
current sha": the loop skips on either equality and returns the first
survivor. -/
theorem find_prior_run_eq_find (c s : String) (l : List RunRec) :
    find_prior_run c s l =
      l.find? (fun run => decide (run.id ≠ c ∧ run.head_sha ≠ some s)) := by
  induction l with
  | nil => rfl
  | cons r rest ih =>
    unfold find_prior_run
    rw [List.find?_cons]
    by_cases h1 : r.id = c
    · rw [if_pos h1]
      have : (decide (r.id ≠ c ∧ r.head_sha ≠ some s)) = false := by
        simp [h1]
      rw [this, ih]
    · rw [if_neg h1]
      by_cases h2 : r.head_sha = some s
      · rw [if_pos h2]
        have : (decide (r.id ≠ c ∧ r.head_sha ≠ some s)) = false := by
          simp [h2]
        rw [this, ih]
      · rw [if_neg h2]
        have : (decide (r.id ≠ c ∧ r.head_sha ≠ some s)) = true := by
          simp [h1, h2]
        rw [this]

/-- C3: `get_latest_prior_different_commit_run` issues exactly one
run-listing request (no further pages), scans the returned newest-first page
in order, skips every run whose id equals the current run id, skips every run
whose sha equals the current sha, and returns the first run passing both
filters — i.e. it is `List.find?` of that predicate — and it returns `none`
exactly when every run of the page fails one of the two filters. -/
theorem c3_locator_first_match (env : Env) (gh : Gh) :
    get_latest_prior_different_commit_run env gh =
      (gh.runs.find? (fun run => decide (run.id ≠ env.run_id ∧ run.head_sha ≠ some env.sha)),
       [ApiCall.listRuns env.branch]) ∧
    ((get_latest_prior_different_commit_run env gh).1 = none ↔
      ∀ run ∈ gh.runs, run.id = env.run_id ∨ run.head_sha = some env.sha) := by
  constructor
  · unfold get_latest_prior_different_commit_run
    rw [find_prior_run_eq_find]
  · unfold get_latest_prior_different_commit_run
    rw [find_prior_run_eq_find]
    simp only [List.find?_eq_none, decide_eq_true_eq]
    constructor
    · intro h run hrun
      have := h run hrun
      tauto
    · intro h run hrun
      have := h run hrun
      tauto

/-- Witness for C3: at the concrete §8 scenario, the locator skips the
current run (id 500) and returns the different-commit run 499, with exactly
one run-listing request in its trace. -/
theorem c3_witness :
    get_latest_prior_different_commit_run sampleEnvW sampleGhW =
      (sampleGhW.runs.find?
        (fun run => decide (run.id ≠ sampleEnvW.run_id ∧ run.head_sha ≠ some sampleEnvW.sha)),
       [ApiCall.listRuns sampleEnvW.branch]) :=
  (c3_locator_first_match sampleEnvW sampleGhW).1

/-- C1: whenever a prior different-revision record with a usable (parseable)
timestamp is found, the decision — in workflow scope and in job scope alike —
is `recent = (age < window)` with a strict inequality on the exact age
`now - t`; in particular an age exactly equal to the window decides `false`. -/
theorem c1_strict_window_comparison :
    (∀ (env : Env) (gh : Gh) (now : ℚ) (prior : RunRec) (ts : String) (t : Int),
      (get_latest_prior_different_commit_run env gh).1 = some prior →
      run_timestamp prior = some ts → ts ≠ "" → parse_utc ts = some t →
      ((workflow_decision env gh now).1.map Prod.fst =
          Except.ok (decide (now - (t : ℚ) < (env.window : ℚ))) ∧
        (now - (t : ℚ) = (env.window : ℚ) →
          (workflow_decision env gh now).1.map Prod.fst = Except.ok false))) ∧
    (∀ (env : Env) (gh : Gh) (now : ℚ) (prior : RunRec) (ts : String) (t : Int),
      (get_latest_prior_different_commit_run env gh).1 = some prior →
      find_job_ts env.job (gh.jobs prior.id) = some ts → ts ≠ "" →
      parse_utc ts = some t →
      ((job_decision env gh now).1.map Prod.fst =
          Except.ok (decide (now - (t : ℚ) < (env.window : ℚ))) ∧
        (now - (t : ℚ) = (env.window : ℚ) →
          (job_decision env gh now).1.map Prod.fst = Except.ok false))) := by
  constructor
  · intro env gh now prior ts t h1 h2 h3 h4
    have hw : (workflow_decision env gh now).1 =
        Except.ok (decide (now - (t : ℚ) < (env.window : ℚ)),
          workflow_decided_details (decide (now - (t : ℚ) < (env.window : ℚ)))
            (now - (t : ℚ)) prior.id ts) := by
      simp only [workflow_decision, calculate_age_seconds, h1, h2, h3, h4,
        if_false, eq_self_iff_true]
    constructor
    · rw [hw]; rfl
    · intro heq
      rw [hw, heq]
      simp [Except.map]
  · intro env gh now prior ts t h1 h2 h3 h4
    have hj : (job_decision env gh now).1 =
        Except.ok (decide (now - (t : ℚ) < (env.window : ℚ)),
          job_decided_details (decide (now - (t : ℚ) < (env.window : ℚ)))
            (now - (t : ℚ)) prior.id ts env.job) := by
      simp only [job_decision, get_latest_prior_different_commit_run_id,
        get_job_timestamp_in_run, calculate_age_seconds, h1, h2, h3, h4,
        Option.map_some', if_false, eq_self_iff_true]
    constructor
    · rw [hj]; rfl
    · intro heq
      rw [hj, heq]
      simp [Except.map]

/-- Witness for C1: at the §8 scenario (age 120 s, window 600 s) both scopes
decide `true`; the boundary clause is exercised at a clock exactly
`window` seconds after the prior timestamp, where both scopes decide
`false`. -/
theorem c1_witness :
    ((workflow_decision sampleEnvW sampleGhW sampleNow).1.map Prod.fst =
        Except.ok true ∧
      (workflow_decision sampleEnvW sampleGhW (1704067200 + 600)).1.map Prod.fst =
        Except.ok false) ∧
    ((job_decision sampleEnvJ sampleGhJ sampleNow).1.map Prod.fst =
        Except.ok true ∧
      (job_decision sampleEnvJ sampleGhJ (1704067200 + 600)).1.map Prod.fst =
        Except.ok false) := by
  have hw := c1_strict_window_comparison.1 sampleEnvW sampleGhW sampleNow
    sampleRun "2024-01-01T00:00:00Z" 1704067200 (by decide) (by decide)
    (by decide) (by decide)
  have hw2 := c1_strict_window_comparison.1 sampleEnvW sampleGhW (1704067200 + 600)
    sampleRun "2024-01-01T00:00:00Z" 1704067200 (by decide) (by decide)
    (by decide) (by decide)
  have hj := c1_strict_window_comparison.2 sampleEnvJ sampleGhJ sampleNow
    sampleRun "2024-01-01T00:00:00Z" 1704067200 (by decide) (by decide)
    (by decide) (by decide)
  have hj2 := c1_strict_window_comparison.2 sampleEnvJ sampleGhJ (1704067200 + 600)
    sampleRun "2024-01-01T00:00:00Z" 1704067200 (by decide) (by decide)
    (by decide) (by decide)
  refine ⟨⟨?_, ?_⟩, ?_, ?_⟩
  · rw [hw.1]; norm_num [sampleNow, sampleEnvW]
  · exact hw2.2 (by norm_num [sampleEnvW])
  · rw [hj.1]; norm_num [sampleNow, sampleEnvJ, sampleEnvW]
  · exact hj2.2 (by norm_num [sampleEnvJ, sampleEnvW])

/-- Counterexample for C9: with the default-branch guard active, an
unrecognized scope selector (`"banana"`) raises nothing — `main` returns the
`false` guard decision before the scope is ever examined, contradicting the
claim that an unknown scope always raises a configuration error and produces
no decision. -/
theorem c9_counterexample :
    strLower guardBadScopeEnv.scope ≠ "workflow" ∧
    strLower guardBadScopeEnv.scope ≠ "job" ∧
    (main_fn guardBadScopeEnv sampleGhW 0).1 = Except.ok (false, guard_details) :=
  ⟨by decide, by decide, by decide⟩

/-- C9 (amended): provided the default-branch guard does not fire, a scope
selector that lowercases to neither `"workflow"` nor `"job"` makes `main`
raise `ValueError(...)` carrying the raw scope, producing no decision, and
the `__main__` wrapper still prints the `ran_recently=false` output line
before the error propagates. -/
theorem c9_amended_unknown_scope (env : Env) (gh : Gh) (now : ℚ)
    (hng : ¬(strLower env.always_false_on_default = "true" ∧
             env.branch = env.default_branch))
    (hw : strLower env.scope ≠ "workflow") (hj : strLower env.scope ≠ "job") :
    (main_fn env gh now).1 = Except.error (Err.configError env.scope) ∧
    run_script env gh now = (["ran_recently=false"], some (Err.configError env.scope)) := by
  have h : main_fn env gh now = (Except.error (Err.configError env.scope), []) := by
    unfold main_fn
    rw [if_neg hng, if_neg hw, if_neg hj]
  constructor
  · rw [h]
  · unfold run_script
    rw [h]
    rfl

/-- Witness for C9 (amended): scope `"banana"` off the default branch raises
the configuration error and the `false` output line is still printed. -/
theorem c9_witness :
    (main_fn badScopeEnv sampleGhW 0).1 = Except.error (Err.configError "banana") ∧
    run_script badScopeEnv sampleGhW 0 =
      (["ran_recently=false"], some (Err.configError "banana")) :=
  c9_amended_unknown_scope badScopeEnv sampleGhW 0 (by decide) (by decide) (by decide)

/-- Counterexample for C4: a present but malformed prior timestamp
(`"not-a-timestamp"`) is not degraded to a `false` decision — the parse error
escapes `workflow_decision`, and the process aborts with the error after
printing the fallback output line.  Only absent/empty timestamps degrade. -/
theorem c4_counterexample :
    (workflow_decision sampleEnvW badTsGh 0).1 = Except.error Err.timestampError ∧
    run_script sampleEnvW badTsGh 0 = (["ran_recently=false"], some Err.timestampError) :=
  ⟨by decide, by decide⟩

/-- C4 (amended): inside `workflow_decision`, a prior run whose timestamp is
absent or empty degrades to a `false` decision with the explanatory reason
`"Prior run had no usable timestamp."`; a present, non-empty timestamp that
fails parsing instead raises `TimestampError`, which escapes the decision
algorithm (the `__main__` wrapper then prints `ran_recently=false` and
re-raises, so the process does abort). -/
theorem c4_amended_timestamp_handling :
    (∀ (env : Env) (gh : Gh) (now : ℚ) (prior : RunRec),
      (get_latest_prior_different_commit_run env gh).1 = some prior →
      (run_timestamp prior = none ∨ run_timestamp prior = some "") →
      (workflow_decision env gh now).1 = Except.ok (false, no_ts_details prior.id)) ∧
    (∀ (env : Env) (gh : Gh) (now : ℚ) (prior : RunRec) (ts : String),
      (get_latest_prior_different_commit_run env gh).1 = some prior →
      run_timestamp prior = some ts → ts ≠ "" → parse_utc ts = none →
      (workflow_decision env gh now).1 = Except.error Err.timestampError) := by
  constructor
  · intro env gh now prior h1 h2
    rcases h2 with h2 | h2 <;> simp [workflow_decision, h1, h2]
  · intro env gh now prior ts h1 h2 h3 h4
    simp [workflow_decision, calculate_age_seconds, h1, h2, h3, h4]

/-- Witness for C4 (amended): a prior run with no timestamp fields yields the
`false` decision with the explanatory reason; a prior run with timestamp
`"not-a-timestamp"` makes the decision error out. -/
theorem c4_witness :
    (workflow_decision sampleEnvW noTsGh 0).1 =
      Except.ok (false, no_ts_details "499") ∧
    (workflow_decision sampleEnvW badTsGh 0).1 = Except.error Err.timestampError :=
  ⟨c4_amended_timestamp_handling.1 sampleEnvW noTsGh 0 noTsRun (by decide)
     (Or.inl (by decide)),
   c4_amended_timestamp_handling.2 sampleEnvW badTsGh 0 badTsRun "not-a-timestamp"
     (by decide) (by decide) (by decide) (by decide)⟩

/-- Every terminal `details` dict built by `workflow_decision` contains the
four base keys `reason`, `age_seconds`, `prior_run_id`, `prior_timestamp`. -/
theorem workflow_decision_base_keys (env : Env) (gh : Gh) (now : ℚ)
    (b : Bool) (d : Details) (c : List ApiCall)
    (h : workflow_decision env gh now = (Except.ok (b, d), c)) :
    "reason" ∈ d.map Prod.fst ∧ "age_seconds" ∈ d.map Prod.fst ∧
    "prior_run_id" ∈ d.map Prod.fst ∧ "prior_timestamp" ∈ d.map Prod.fst := by
  simp only [workflow_decision] at h
  split at h
  · simp only [Prod.mk.injEq, Except.ok.injEq] at h
    rcases h with ⟨⟨hb, hd⟩, hc⟩
    subst hd
    simp [no_prior_details]
  · split at h
    · simp only [Prod.mk.injEq, Except.ok.injEq] at h
      rcases h with ⟨⟨hb, hd⟩, hc⟩
      subst hd
      simp [no_ts_details]
    · split at h
      · simp only [Prod.mk.injEq, Except.ok.injEq] at h
        rcases h with ⟨⟨hb, hd⟩, hc⟩
        subst hd
        simp [no_ts_details]
      · split at h
        · simp at h
        · simp only [Prod.mk.injEq, Except.ok.injEq] at h
          rcases h with ⟨⟨hb, hd⟩, hc⟩
          subst hd
          simp [workflow_decided_details]

/-- Every terminal `details` dict built by `job_decision` contains the four
base keys and `job_name`. -/
theorem job_decision_keys (env : Env) (gh : Gh) (now : ℚ)
    (b : Bool) (d : Details) (c : List ApiCall)
    (h : job_decision env gh now = (Except.ok (b, d), c)) :
    ("reason" ∈ d.map Prod.fst ∧ "age_seconds" ∈ d.map Prod.fst ∧
     "prior_run_id" ∈ d.map Prod.fst ∧ "prior_timestamp" ∈ d.map Prod.fst) ∧
    "job_name" ∈ d.map Prod.fst := by
  simp only [job_decision] at h
  split at h
  · simp only [Prod.mk.injEq, Except.ok.injEq] at h
    rcases h with ⟨⟨hb, hd⟩, hc⟩
    subst hd
    simp [job_no_prior_details]
  · split at h
    · simp only [Prod.mk.injEq, Except.ok.injEq] at h
      rcases h with ⟨⟨hb, hd⟩, hc⟩
      subst hd
      simp [job_no_match_details]
    · split at h
      · simp only [Prod.mk.injEq, Except.ok.injEq] at h
        rcases h with ⟨⟨hb, hd⟩, hc⟩
        subst hd
        simp [job_no_match_details]
      · split at h
        · simp at h
        · simp only [Prod.mk.injEq, Except.ok.injEq] at h
          rcases h with ⟨⟨hb, hd⟩, hc⟩
          subst hd
          simp [job_decided_details]

/-- Counterexample for C8: in job scope with the default-branch guard
active, `main`'s decided outcome carries the guard `details`, which has the
four base keys but no `job_name` key — contradicting the claim that every
decided outcome (including the guard outcome) additionally populates
`jobName` in job scope. -/
theorem c8_counterexample :
    strLower guardJobEnv.scope = "job" ∧
    main_fn guardJobEnv sampleGhJ 0 = (Except.ok (false, guard_details), []) ∧
    ¬ ("job_name" ∈ guard_details.map Prod.fst) :=
  ⟨by decide, by decide, by decide⟩

/-- C8 (amended): every decided outcome of `main` populates `reason`,
`age_seconds`, `prior_run_id` and `prior_timestamp` (with the `"—"` sentinel
where not applicable), and additionally populates `job_name` in job scope
*except* for the default-branch guard outcome, whose inline `details` omits
`job_name` even in job scope (the reporting adapter later falls back to the
environment's job name when rendering that field). -/
theorem c8_amended_details_keys (env : Env) (gh : Gh) (now : ℚ)
    (b : Bool) (d : Details) (tr : List ApiCall)
    (h : main_fn env gh now = (Except.ok (b, d), tr)) :
    ("reason" ∈ d.map Prod.fst ∧ "age_seconds" ∈ d.map Prod.fst ∧
     "prior_run_id" ∈ d.map Prod.fst ∧ "prior_timestamp" ∈ d.map Prod.fst) ∧
    (strLower env.scope = "job" →
      ¬(strLower env.always_false_on_default = "true" ∧
        env.branch = env.default_branch) →
      "job_name" ∈ d.map Prod.fst) := by
  simp only [main_fn] at h
  split_ifs at h with hg hw hj
  · simp only [Prod.mk.injEq, Except.ok.injEq] at h
    rcases h with ⟨⟨hb, hd⟩, hc⟩
    subst hd
    refine ⟨by simp [guard_details], ?_⟩
    intro _ hng
    exact absurd hg hng
  · refine ⟨(workflow_decision_base_keys env gh now b d tr h), ?_⟩
    intro hjob _
    rw [hw] at hjob
    simp at hjob
  · have := job_decision_keys env gh now b d tr h
    exact ⟨this.1, fun _ _ => this.2⟩
  · simp at h

/-- Witness for C8 (amended): a job-scope decision (prior run 499 located,
no matching job in it) carries all five keys, `job_name` included. -/
theorem c8_witness :
    main_fn sampleEnvJ sampleGhW 0 =
      (Except.ok (false, job_no_match_details "499" "build"),
       [ApiCall.listRuns "feature", ApiCall.listJobs "499"]) ∧
    "job_name" ∈ (job_no_match_details "499" "build").map Prod.fst := by
  have hmain : main_fn sampleEnvJ sampleGhW 0 =
      (Except.ok (false, job_no_match_details "499" "build"),
       [ApiCall.listRuns "feature", ApiCall.listJobs "499"]) := by decide
  exact ⟨hmain,
    (c8_amended_details_keys sampleEnvJ sampleGhW 0 false
      (job_no_match_details "499" "build")
      [ApiCall.listRuns "feature", ApiCall.listJobs "499"] hmain).2
      (by decide) (by decide)⟩

/-! ### Decimal-rendering lemmas used for the `humanize_seconds` claim -/

theorem natStrAux_ne_nil (fuel n : Nat) (h : n < fuel) : natStrAux fuel n ≠ [] := by
  cases fuel with
  | zero => omega
  | succ f =>
    unfold natStrAux
    split_ifs <;> simp

theorem natStrAux_digits (fuel : Nat) :
    ∀ n, n < fuel → ∀ c ∈ natStrAux fuel n, c.isDigit = true := by
  induction fuel with
  | zero => intro n h; omega
  | succ f ih =>
    intro n h c hc
    unfold natStrAux at hc
    by_cases h10 : n < 10
    · rw [if_pos h10] at hc
      simp at hc
      subst hc
      interval_cases n <;> decide
    · rw [if_neg h10] at hc
      simp at hc
      rcases hc with hc | hc
      · exact ih (n / 10) (by omega) c hc
      · subst hc
        have hm : n % 10 < 10 := Nat.mod_lt _ (by omega)
        generalize n % 10 = k at hm ⊢
        interval_cases k <;> decide

theorem natStrAux_single_zero (fuel : Nat) :
    ∀ n, n < fuel → natStrAux fuel n = ['0'] → n = 0 := by
  induction fuel with
  | zero => intro n h; omega
  | succ f ih =>
    intro n h he
    unfold natStrAux at he
    by_cases h10 : n < 10
    · rw [if_pos h10] at he
      revert he
      interval_cases n <;> decide
    · rw [if_neg h10] at he
      rcases hx : natStrAux f (n / 10) with _ | ⟨a, t⟩
      · exact absurd hx (natStrAux_ne_nil f (n / 10) (by omega))
      · rw [hx] at he
        simp at he

theorem natStr_ne_nil (n : Nat) : (natStr n).data ≠ [] :=
  natStrAux_ne_nil (n + 1) n (by omega)

theorem natStr_digits (n : Nat) : ∀ c ∈ (natStr n).data, c.isDigit = true :=
  natStrAux_digits (n + 1) n (by omega)

theorem natStr_single_zero (n : Nat) : (natStr n).data = ['0'] → n = 0 :=
  natStrAux_single_zero (n + 1) n (by omega)

theorem digits_block_ne (n : Nat) (c u : Char) (hu : u.isDigit = false)
    (hc : c ≠ u) (tail r : List Char) :
    (natStr n).data ++ (c :: tail) ≠ '0' :: u :: r := by
  intro he
  rcases hd : (natStr n).data with _ | ⟨a, rest⟩
  · exact natStr_ne_nil n hd
  · rw [hd] at he
    rcases rest with _ | ⟨b, rest2⟩
    · simp at he
      exact hc he.2.1
    · simp at he
      have hb : b.isDigit = true := natStr_digits n b (by rw [hd]; simp)
      rw [he.2.1, hu] at hb
      exact Bool.noConfusion hb

theorem digits_block_ne_self (n : Nat) (u : Char) (hu : u.isDigit = false)
    (hn : n ≠ 0) (tail r : List Char) :
    (natStr n).data ++ (u :: tail) ≠ '0' :: u :: r := by
  intro he
  rcases hd : (natStr n).data with _ | ⟨a, rest⟩
  · exact natStr_ne_nil n hd
  · rw [hd] at he
    rcases rest with _ | ⟨b, rest2⟩
    · simp at he
      exact hn (natStr_single_zero n (by rw [hd, he.1]))
    · simp at he
      have hb : b.isDigit = true := natStr_digits n b (by rw [hd]; simp)
      rw [he.2.1, hu] at hb
      exact Bool.noConfusion hb

theorem data_h_space : ("h " : String).data = ['h', ' '] := rfl
theorem data_m_space : ("m " : String).data = ['m', ' '] := rfl
theorem data_s_unit : ("s" : String).data = ['s'] := rfl
theorem data_zero_h : ("0h " : String).data = ['0', 'h', ' '] := rfl
theorem data_zero_m : ("0m " : String).data = ['0', 'm', ' '] := rfl

/-- `humanize_seconds` never renders a zero hours unit: no output starts
with `"0h "`. -/
theorem humanize_no_zero_h (q : ℚ) (r : String) :
    humanize_seconds (some q) ≠ "0h " ++ r := by
  intro he
  simp only [humanize_seconds] at he
  have hdata := congrArg String.data he
  split_ifs at hdata with h1 h2
  · simp only [String.data_append, data_h_space, data_m_space, data_s_unit,
      data_zero_h, List.append_assoc, List.cons_append, List.nil_append] at hdata
    exact digits_block_ne_self _ 'h' (by decide) h1 _ _ hdata
  · simp only [String.data_append, data_m_space, data_s_unit,
      data_zero_h, List.append_assoc, List.cons_append, List.nil_append] at hdata
    exact digits_block_ne _ 'm' 'h' (by decide) (by decide) _ _ hdata
  · simp only [String.data_append, data_s_unit,
      data_zero_h, List.append_assoc, List.cons_append, List.nil_append] at hdata
    exact digits_block_ne _ 's' 'h' (by decide) (by decide) _ _ hdata

/-- `humanize_seconds` never renders a zero minutes unit in leading position:
no output starts with `"0m "` — whenever the hours unit is absent, a zero
minutes unit is omitted rather than rendered first. -/
theorem humanize_no_leading_zero_m (q : ℚ) (r : String) :
    humanize_seconds (some q) ≠ "0m " ++ r := by
  intro he
  simp only [humanize_seconds] at he
  have hdata := congrArg String.data he
  split_ifs at hdata with h1 h2
  · simp only [String.data_append, data_h_space, data_m_space, data_s_unit,
      data_zero_m, List.append_assoc, List.cons_append, List.nil_append] at hdata
    exact digits_block_ne _ 'h' 'm' (by decide) (by decide) _ _ hdata
  · simp only [String.data_append, data_m_space, data_s_unit,
      data_zero_m, List.append_assoc, List.cons_append, List.nil_append] at hdata
    exact digits_block_ne_self _ 'm' (by decide) h2 _ _ hdata
  · simp only [String.data_append, data_s_unit,
      data_zero_m, List.append_assoc, List.cons_append, List.nil_append] at hdata
    exact digits_block_ne _ 's' 'm' (by decide) (by decide) _ _ hdata

/-- When the clamped duration is under one minute — i.e. the computed hours
and minutes units are both zero — `humanize_seconds` renders only the
seconds unit: no hours unit and no minutes unit appear at all. -/
theorem humanize_seconds_only (q : ℚ)
    (hq : (max 0 q).num.toNat / (max 0 q).den < 60) :
    humanize_seconds (some q) =
      natStr ((max 0 q).num.toNat / (max 0 q).den) ++ "s" := by
  simp only [humanize_seconds]
  have h60 : (max 0 q).num.toNat / (max 0 q).den / 60 = 0 := Nat.div_eq_of_lt hq
  have hmod : (max 0 q).num.toNat / (max 0 q).den % 60 =
      (max 0 q).num.toNat / (max 0 q).den := Nat.mod_eq_of_lt hq
  rw [h60, hmod]
  simp

/-- Counterexample for C7: at 3600 seconds the rendering is `"1h 0m 0s"` —
the zero-minutes unit `0m` is shown together with the hours unit `1h`,
contradicting the claim that `0m` is shown only if hours are absent. -/
theorem c7_counterexample :
    humanize_seconds (some 3600) = "1h " ++ "0m " ++ "0s" := by decide

/-- C7 (amended): `humanize_seconds` renders absent input as the em-dash
placeholder, `humanize(75) = "1m 15s"`, `humanize(3661) = "1h 1m 1s"`, and
omits leading zero units: a zero hours unit is never rendered (no output
ever starts with a `0h` unit), and a zero minutes unit is omitted exactly
when hours are also absent — in the omitted direction, no output ever starts
with a `0m` unit, and whenever hours and minutes are both zero only the
seconds unit is rendered, as in `humanize(45) = "45s"`; in the other
direction, when hours are present a zero minutes unit IS rendered, as in
`humanize(3600) = "1h 0m 0s"`. -/
theorem c7_amended_humanize :
    humanize_seconds none = "—" ∧
    humanize_seconds (some 75) = "1m 15s" ∧
    humanize_seconds (some 3661) = "1h 1m 1s" ∧
    humanize_seconds (some 3600) = "1h 0m 0s" ∧
    humanize_seconds (some 45) = "45s" ∧
    (∀ (q : ℚ) (r : String), humanize_seconds (some q) ≠ "0h " ++ r) ∧
    (∀ (q : ℚ) (r : String), humanize_seconds (some q) ≠ "0m " ++ r) ∧
    (∀ (q : ℚ), (max 0 q).num.toNat / (max 0 q).den < 60 →
      humanize_seconds (some q) =
        natStr ((max 0 q).num.toNat / (max 0 q).den) ++ "s") :=
  ⟨by decide, by decide, by decide, by decide, by decide,
   humanize_no_zero_h, humanize_no_leading_zero_m, humanize_seconds_only⟩

/-- Witness for C7 (amended): the universal clauses at concrete inputs — 45
clamped seconds are under a minute and render as the bare seconds unit, and
no output starts with a `0h` or `0m` unit. -/
theorem c7_witness :
    ((max 0 (45 : ℚ)).num.toNat / (max 0 (45 : ℚ)).den < 60) ∧
    humanize_seconds (some (45 : ℚ)) =
      natStr ((max 0 (45 : ℚ)).num.toNat / (max 0 (45 : ℚ)).den) ++ "s" ∧
    humanize_seconds (some 0) ≠ "0h " ++ "0m 0s" ∧
    humanize_seconds (some 0) ≠ "0m " ++ "0s" :=
  ⟨by decide,
   c7_amended_humanize.2.2.2.2.2.2.2 45 (by decide),
   c7_amended_humanize.2.2.2.2.2.1 0 "0m 0s",
   c7_amended_humanize.2.2.2.2.2.2.1 0 "0s"⟩
